import Mathlib

/-
  Verification development for the multi-timer countdown utility (src/timer.py).

  The timer core is embedded shallowly:
  * per-timer runtime state (`timer_states` dict entries) becomes `TimerState`;
  * the session state bag becomes `Registry` (num_timers, timer_configs,
    timer_states as a partial map, finished_timers as a boolean set);
  * wall-clock time (datetime.now) is passed explicitly as a rational number of
    seconds; durations are rationals (minutes), as in the source;
  * the per-render completion scan (the "tick") is the fold of `tick_one` over
    the configured timer indices, returning the mutated registry and the
    `newly_finished` list;
  * the tone synthesizer `generate_beep_sound` is embedded over the reals
    (numpy float arrays are idealised as exact real arithmetic; `int()`
    truncation and int16 quantisation are modelled exactly).
-/

set_option maxHeartbeats 1000000

namespace Timer

/-- Runtime state of one timer, mirroring the dict created by
`initialize_timer_state` in src/timer.py: `start_time` (None or a timestamp),
`is_running`, and `duration` (in minutes, as stored by the source). -/
structure TimerState where
  start_time : Option ℚ
  is_running : Bool
  duration : ℚ
  deriving DecidableEq

/-- One entry of `st.session_state.timer_configs`: display name, duration in
minutes, and notification tone frequency in Hz. -/
structure TimerConfig where
  name : String
  minutes : ℚ
  frequency : ℕ
  deriving DecidableEq

/-- The session state bag of src/timer.py: number of active timer slots,
the config list, the `timer_states` dict (partial map from timer index), and
the `finished_timers` set (membership function). Timer ids `f"timer_{i}"` are
modelled by the index `i` itself. -/
structure Registry where
  num_timers : ℕ
  timer_configs : List TimerConfig
  timer_states : ℕ → Option TimerState
  finished_timers : ℕ → Bool

/-- The six default configurations from the session-state initialisation block
of src/timer.py. -/
def defaultConfigs : List TimerConfig :=
  [⟨"Standard Time", 75, 440⟩,
   ⟨"5 min/hr ext", 81.25, 523⟩,
   ⟨"10 min/hr ext", 87.5, 659⟩,
   ⟨"15 min/hr ext", 93.75, 783⟩,
   ⟨"Custom Timer 5", 60, 880⟩,
   ⟨"Custom Timer 6", 90, 1047⟩]

/-- The initial session state: 4 timers, default configs, empty `timer_states`
dict, empty `finished_timers` set. -/
def initialRegistry : Registry :=
  { num_timers := 4
    timer_configs := defaultConfigs
    timer_states := fun _ => none
    finished_timers := fun _ => false }

/-- `initialize_timer_state(timer_id, duration)`: create the state dict entry
(start_time=None, is_running=False, duration) only if it does not exist yet. -/
def initialize_timer_state (r : Registry) (id : ℕ) (d : ℚ) : Registry :=
  match r.timer_states id with
  | some _ => r
  | none =>
    { r with timer_states := fun j =>
        if j = id then some ⟨none, false, d⟩ else r.timer_states j }

/-- `get_time_remaining(timer_id)`: None if the timer has no state; the full
`duration * 60` if `start_time` is None or the timer is not running; otherwise
`max(0, duration*60 - (now - start_time))`. The wall clock `now` is explicit. -/
def get_time_remaining (r : Registry) (now : ℚ) (id : ℕ) : Option ℚ :=
  match r.timer_states id with
  | none => none
  | some ts =>
    match ts.start_time, ts.is_running with
    | none, _ => some (ts.duration * 60)
    | some _, false => some (ts.duration * 60)
    | some s, true => some (max 0 (ts.duration * 60 - (now - s)))

/-- `start_timer(timer_id)`: if the state exists, set `start_time = now` and
`is_running = True` (unconditionally, whatever the previous status). -/
def start_timer (r : Registry) (id : ℕ) (now : ℚ) : Registry :=
  match r.timer_states id with
  | none => r
  | some ts =>
    { r with timer_states := fun j =>
        if j = id then some { ts with start_time := some now, is_running := true }
        else r.timer_states j }

/-- `stop_timer(timer_id)`: if the state exists, set `is_running = False`
(`start_time` is left in place). -/
def stop_timer (r : Registry) (id : ℕ) : Registry :=
  match r.timer_states id with
  | none => r
  | some ts =>
    { r with timer_states := fun j =>
        if j = id then some { ts with is_running := false }
        else r.timer_states j }

/-- `reset_timer(timer_id)`: if the state exists, clear `start_time`, stop the
timer, and remove it from `finished_timers`. -/
def reset_timer (r : Registry) (id : ℕ) : Registry :=
  match r.timer_states id with
  | none => r
  | some ts =>
    { r with
      timer_states := fun j =>
        if j = id then some { ts with start_time := none, is_running := false }
        else r.timer_states j
      finished_timers := fun j => if j = id then false else r.finished_timers j }

/-- The name-update block of the configuration section: the config name is
replaced whenever the widget value differs, regardless of running state. -/
def configure_name (r : Registry) (i : ℕ) (new_name : String) : Registry :=
  match r.timer_configs[i]? with
  | none => r
  | some cfg =>
    if new_name ≠ cfg.name then
      { r with timer_configs := r.timer_configs.set i { cfg with name := new_name } }
    else r

/-- The minutes-update block: on a changed value the config minutes are always
replaced, and the state `duration` field is additionally updated only when the
timer state exists and the timer is not running. -/
def configure_minutes (r : Registry) (i : ℕ) (new_minutes : ℚ) : Registry :=
  match r.timer_configs[i]? with
  | none => r
  | some cfg =>
    if new_minutes ≠ cfg.minutes then
      match r.timer_states i with
      | some ts =>
        if ts.is_running = false then
          { r with
            timer_configs := r.timer_configs.set i { cfg with minutes := new_minutes }
            timer_states := fun j =>
              if j = i then some { ts with duration := new_minutes }
              else r.timer_states j }
        else
          { r with timer_configs := r.timer_configs.set i { cfg with minutes := new_minutes } }
      | none =>
        { r with timer_configs := r.timer_configs.set i { cfg with minutes := new_minutes } }
    else r

/-- The sound-update block: on a changed value the config frequency is always
replaced, regardless of running state. -/
def configure_frequency (r : Registry) (i : ℕ) (new_freq : ℕ) : Registry :=
  match r.timer_configs[i]? with
  | none => r
  | some cfg =>
    if new_freq ≠ cfg.frequency then
      { r with timer_configs := r.timer_configs.set i { cfg with frequency := new_freq } }
    else r

/-- The `just_finished` check (lines 269-280 of src/timer.py) for an already
initialised timer `i`: compute the remaining time, and if `just_finished`
(remaining ≤ 0, running, not yet in `finished_timers`) record
`(i, frequency, name)` in the newly-finished list, add `i` to
`finished_timers` and stop the timer. -/
def tick_check (now : ℚ) (r : Registry) (i : ℕ) (cfg : TimerConfig)
    (entries : List (ℕ × ℕ × String)) : Registry × List (ℕ × ℕ × String) :=
  match r.timer_states i, get_time_remaining r now i with
  | some ts, some rem =>
    if rem ≤ 0 ∧ ts.is_running = true ∧ r.finished_timers i = false then
      ({ r with
          timer_states := fun j =>
            if j = i then some { ts with is_running := false } else r.timer_states j
          finished_timers := fun j => if j = i then true else r.finished_timers j },
        entries ++ [(i, cfg.frequency, cfg.name)])
    else (r, entries)
  | _, _ => (r, entries)

/-- One iteration of the per-render completion scan of src/timer.py for timer
index `i`: initialise the state from the config if needed, then run the
`just_finished` check. -/
def tick_one (now : ℚ) (acc : Registry × List (ℕ × ℕ × String)) (i : ℕ) :
    Registry × List (ℕ × ℕ × String) :=
  match acc.1.timer_configs[i]? with
  | none => acc
  | some cfg => tick_check now (initialize_timer_state acc.1 i cfg.minutes) i cfg acc.2

/-- The whole per-render completion scan ("tick"): fold `tick_one` over the
configured timer indices `0 .. num_timers-1` in order, starting from an empty
`newly_finished` list. Returns the new registry and the newly-finished
entries. -/
def tick (r : Registry) (now : ℚ) : Registry × List (ℕ × ℕ × String) :=
  (List.range r.num_timers).foldl (tick_one now) (r, [])

/-- The timer indices of a newly-finished list. -/
def newlyIdsOf (l : List (ℕ × ℕ × String)) : List ℕ :=
  l.map (fun e => e.1)

/-- The status enumeration of the specification. -/
inductive Status where
  | Ready
  | Running
  | Finished
  deriving DecidableEq

/-- The status of a timer, derived from the persistent session state of
src/timer.py: Running iff `is_running`; otherwise Finished iff the timer is in
`finished_timers` (membership in that set is what survives across renders and
is cleared only by reset, matching the spec glossary "Finished: terminal state
for a run, cleared only by Reset"); otherwise Ready. Timers with no state yet
are Ready. -/
def status (r : Registry) (id : ℕ) : Status :=
  match r.timer_states id with
  | none => Status.Ready
  | some ts =>
    if ts.is_running = true then Status.Running
    else if r.finished_timers id = true then Status.Finished
    else Status.Ready

/-- User-action alphabet of the source (config widgets, per-timer buttons,
slider, and the per-render completion scan). -/
inductive Op where
  | init (id : ℕ) (d : ℚ)
  | start (id : ℕ) (now : ℚ)
  | stop (id : ℕ)
  | reset (id : ℕ)
  | tickOp (now : ℚ)
  | confName (i : ℕ) (s : String)
  | confMinutes (i : ℕ) (m : ℚ)
  | confFreq (i : ℕ) (fq : ℕ)
  | setNum (n : ℕ)
  deriving DecidableEq

/-- Interpretation of one user action on the session state. The slider is
clamped to its widget range 1..6 as in the source. -/
def applyOp (r : Registry) : Op → Registry
  | Op.init id d => initialize_timer_state r id d
  | Op.start id now => start_timer r id now
  | Op.stop id => stop_timer r id
  | Op.reset id => reset_timer r id
  | Op.tickOp now => (tick r now).1
  | Op.confName i s => configure_name r i s
  | Op.confMinutes i m => configure_minutes r i m
  | Op.confFreq i fq => configure_frequency r i fq
  | Op.setNum n => if 1 ≤ n ∧ n ≤ 6 then { r with num_timers := n } else r

/-- Interpretation of a sequence of user actions, first action first. -/
def applyOps (r : Registry) : List Op → Registry
  | [] => r
  | op :: rest => applyOps (applyOp r op) rest

/-- A session state is reachable when some action sequence produces it from
the initial session state. -/
def Reachable (r : Registry) : Prop :=
  ∃ ops : List Op, r = applyOps initialRegistry ops

/-- Number of samples produced by `generate_beep_sound`:
`int(sample_rate * duration)` (Python `int` truncates toward zero; for the
nonnegative products in use this is the floor). -/
def n_samples (d : ℚ) (r : ℕ) : ℕ :=
  (⌊(r : ℚ) * d⌋).toNat

/-- Length of the fade regions: `int(0.01 * sample_rate)` (10 ms). -/
def fade_samples (r : ℕ) : ℕ :=
  (⌊(1 / 100 : ℚ) * (r : ℚ)⌋).toNat

/-- The time of sample `k`: `np.linspace(0, duration, n, False)` places sample
`k` at `duration * k / n`. -/
noncomputable def sample_t (d : ℚ) (n k : ℕ) : ℝ :=
  (d : ℝ) * k / n

/-- The raw sine wave of `generate_beep_sound`:
`np.sin(2 * np.pi * frequency * t)` at sample `k`. -/
noncomputable def raw_wave (f d : ℚ) (r : ℕ) (k : ℕ) : ℝ :=
  Real.sin (2 * Real.pi * (f : ℝ) * sample_t d (n_samples d r) k)

/-- The fade-in multiplier `np.linspace(0, 1, fade_samples)[k]` applied to the
first `fade_samples` samples (a one-point linspace is `[0.]`). -/
noncomputable def fade_in_mult (fs k : ℕ) : ℝ :=
  if fs ≤ 1 then 0 else (k : ℝ) / ((fs : ℝ) - 1)

/-- The fade-out multiplier `np.linspace(1, 0, fade_samples)[j]` applied to the
last `fade_samples` samples, `j` counted from the start of the fade-out region
(a one-point linspace is `[1.]`). -/
noncomputable def fade_out_mult (fs j : ℕ) : ℝ :=
  if fs ≤ 1 then 1 else 1 - (j : ℝ) / ((fs : ℝ) - 1)

/-- The wave after both fades: sample `k` multiplied by the fade-in factor when
`k` lies in the first `fade_samples` samples and by the fade-out factor when it
lies in the last `fade_samples` samples. This pointwise algebra matches the
source only on the inputs where the in-place numpy broadcasts succeed
(`fade_ok` below): on the other inputs the source raises an uncaught broadcast
ValueError and produces no wave at all, which is modelled by the error path of
`generate_beep_sound`, not here. -/
noncomputable def faded_wave (f d : ℚ) (r : ℕ) (k : ℕ) : ℝ :=
  (if k < fade_samples r then fade_in_mult (fade_samples r) k else 1) *
    ((if n_samples d r - fade_samples r ≤ k then
        fade_out_mult (fade_samples r) (k - (n_samples d r - fade_samples r))
      else 1) *
      raw_wave f d r k)

/-- 16-bit quantisation `(wave * 32767).astype(np.int16)`: C-style float-to-int
conversion truncates toward zero (floor for nonnegative values, ceiling for
negative ones; all values here fit in int16 since the wave lies in [-1, 1]). -/
noncomputable def pcm_sample (f d : ℚ) (r : ℕ) (k : ℕ) : ℤ :=
  if 0 ≤ faded_wave f d r k * 32767 then ⌊faded_wave f d r k * 32767⌋
  else ⌈faded_wave f d r k * 32767⌉

/-- The quantised audio buffer. -/
noncomputable def audio_samples (f d : ℚ) (r : ℕ) : List ℤ :=
  (List.range (n_samples d r)).map (pcm_sample f d r)

/-- Two little-endian bytes of a 16-bit value. -/
def le2 (v : ℕ) : List ℕ := [v % 256, v / 256 % 256]

/-- Four little-endian bytes of a 32-bit value. -/
def le4 (v : ℕ) : List ℕ :=
  [v % 256, v / 256 % 256, v / 65536 % 256, v / 16777216 % 256]

/-- The full WAV byte stream written by `generate_beep_sound`: the RIFF/fmt
headers (PCM, mono, 16-bit, the given sample rate) followed by the int16
samples in little-endian two's complement, exactly as `struct.pack` and
`audio.tobytes()` produce them. -/
noncomputable def wav_bytes (f d : ℚ) (r : ℕ) : List ℕ :=
  [82, 73, 70, 70] ++ le4 (36 + (audio_samples f d r).length * 2) ++
    [87, 65, 86, 69] ++ [102, 109, 116, 32] ++ le4 16 ++ le2 1 ++ le2 1 ++
    le4 r ++ le4 (r * 2) ++ le2 2 ++ le2 16 ++
    [100, 97, 116, 97] ++ le4 ((audio_samples f d r).length * 2) ++
    (audio_samples f d r).foldr (fun z acc => le2 ((z % 65536).toNat) ++ acc) []

/-- The domain on which the two in-place fade multiplications of
`generate_beep_sound` broadcast successfully. `wave[:fs] *= linspace(0,1,fs)`
and `wave[-fs:] *= linspace(1,0,fs)` require each slice to have the linspace's
length (or the linspace to be a singleton): with a non-empty buffer this holds
exactly when `1 ≤ fade_samples ≤ n_samples` — `fade_samples = 0` makes
`wave[-0:]` the whole buffer multiplied by an empty array, and
`fade_samples > n_samples` makes the slices shorter than the linspace, both
raising ValueError; with an empty buffer the slices are empty and only
`fade_samples ≤ 1` broadcasts. -/
def fade_ok (d : ℚ) (r : ℕ) : Prop :=
  (1 ≤ fade_samples r ∧ fade_samples r ≤ n_samples d r) ∨
  (n_samples d r = 0 ∧ fade_samples r ≤ 1)

instance (d : ℚ) (r : ℕ) : Decidable (fade_ok d r) := by
  unfold fade_ok
  infer_instance

/-- `generate_beep_sound(frequency, duration, sample_rate)`: the WAV byte
stream, or `none` for the uncaught numpy broadcast ValueError raised by the
fade lines outside `fade_ok` (the source catches only ImportError, so no
buffer is produced there). -/
noncomputable def generate_beep_sound (f d : ℚ) (r : ℕ) : Option (List ℕ) :=
  if fade_ok d r then some (wav_bytes f d r) else none

/-- Modelled from the spec (failure semantics of section 4.1, which is absent
from the source as written: the source start/stop/reset are silent no-ops on
unknown ids): a start operation that fails with an "unknown timer" error on an
out-of-range index, used as the comparison point for the error-signalling
claim. -/
def start_timer_from_spec (r : Registry) (id : ℕ) (now : ℚ) : Except String Registry :=
  if id < r.num_timers then Except.ok (start_timer r id now)
  else Except.error ("unknown timer")

/-- Concrete scenario used throughout: slider down to one timer, first
reference to timer 0 initialises its state with the default 75 minutes, then
timer 0 is started at wall time 0. -/
def rOne : Registry :=
  applyOps initialRegistry [Op.setNum 1, Op.init 0 75, Op.start 0 0]

/-- The state invariant relating `start_time` to the run status: every member
of `finished_timers` has a state with a defined `start_time`, and every
running state has a defined `start_time`. -/
def Inv (r : Registry) : Prop :=
  (∀ id, r.finished_timers id = true →
      ∃ ts, r.timer_states id = some ts ∧ ts.start_time ≠ none) ∧
  (∀ id ts, r.timer_states id = some ts → ts.is_running = true → ts.start_time ≠ none)

/- ------------------------------------------------------------------
   Helper lemmas about the registry operations.
   ------------------------------------------------------------------ -/

theorem initialize_finished (r : Registry) (id : ℕ) (d : ℚ) :
    (initialize_timer_state r id d).finished_timers = r.finished_timers := by
  unfold initialize_timer_state
  cases r.timer_states id <;> rfl

theorem initialize_configs (r : Registry) (id : ℕ) (d : ℚ) :
    (initialize_timer_state r id d).timer_configs = r.timer_configs := by
  unfold initialize_timer_state
  cases r.timer_states id <;> rfl

theorem initialize_states_of_some (r : Registry) (id : ℕ) (d : ℚ) (ts : TimerState)
    (h : r.timer_states id = some ts) :
    (initialize_timer_state r id d).timer_states = r.timer_states := by
  unfold initialize_timer_state
  rw [h]

theorem initialize_states_ne (r : Registry) (id : ℕ) (d : ℚ) (j : ℕ) (h : j ≠ id) :
    (initialize_timer_state r id d).timer_states j = r.timer_states j := by
  unfold initialize_timer_state
  cases r.timer_states id with
  | some ts => rfl
  | none => simp [h]

theorem start_finished (r : Registry) (id : ℕ) (now : ℚ) :
    (start_timer r id now).finished_timers = r.finished_timers := by
  unfold start_timer
  cases r.timer_states id <;> rfl

theorem stop_finished (r : Registry) (id : ℕ) :
    (stop_timer r id).finished_timers = r.finished_timers := by
  unfold stop_timer
  cases r.timer_states id <;> rfl

theorem start_states_self (r : Registry) (id : ℕ) (now : ℚ) (ts : TimerState)
    (h : r.timer_states id = some ts) :
    (start_timer r id now).timer_states id
      = some { ts with start_time := some now, is_running := true } := by
  unfold start_timer
  rw [h]
  simp

theorem start_states_ne (r : Registry) (id : ℕ) (now : ℚ) (j : ℕ) (h : j ≠ id) :
    (start_timer r id now).timer_states j = r.timer_states j := by
  unfold start_timer
  cases r.timer_states id with
  | none => rfl
  | some ts => simp [h]

/- ------------------------------------------------------------------
   Claim C3.
   ------------------------------------------------------------------ -/

/-- Claim C3 (amended): operations on an unknown timer id (in particular any
index outside the range of configured timers, whose state is never created)
leave all timer state unchanged; `start`, `stop` and `reset` are silent no-ops
with no error signal, and only the remaining-time query reports the unknown
timer, by returning `none`; no operation raises for a valid index (all
operations are total functions of the state). -/
theorem C3_unknown_id_noop (r : Registry) (id : ℕ) (now : ℚ)
    (h : r.timer_states id = none) :
    start_timer r id now = r ∧ stop_timer r id = r ∧ reset_timer r id = r ∧
    get_time_remaining r now id = none := by
  unfold start_timer stop_timer reset_timer get_time_remaining
  rw [h]
  exact ⟨rfl, rfl, rfl, rfl⟩

theorem C3_unknown_id_noop_witness :
    start_timer initialRegistry 10 0 = initialRegistry ∧
    stop_timer initialRegistry 10 = initialRegistry ∧
    reset_timer initialRegistry 10 = initialRegistry ∧
    get_time_remaining initialRegistry 0 10 = none :=
  C3_unknown_id_noop initialRegistry 10 0 rfl

/-- Claim C3, counterexample to the claim as stated: the spec-modelled start
fails with an "unknown timer" error on the out-of-range index 10 (only 4
timers are configured), but the start of the source signals nothing at all: it
returns the unchanged state, with no error channel. -/
theorem C3_counterexample :
    Except.ok (start_timer initialRegistry 10 0) ≠ start_timer_from_spec initialRegistry 10 0 := by
  intro hcontra
  have hspec : start_timer_from_spec initialRegistry 10 0 = Except.error ("unknown timer") := rfl
  rw [hspec] at hcontra
  exact Except.noConfusion hcontra

/- ------------------------------------------------------------------
   Claim C7.
   ------------------------------------------------------------------ -/

/-- Claim C7 (amended): `start` sets `startedAt = now` and status Running for
any timer whose state exists, regardless of its current status; in particular
starting an already-Running timer is not a no-op: it reassigns `startedAt`,
restarting the countdown. (The duration snapshot is taken at initialisation or
configuration time, not by `start`.) On an id with no state, `start` does
nothing. -/
theorem C7_start_unconditional (r : Registry) (id : ℕ) (now : ℚ) (ts : TimerState)
    (h : r.timer_states id = some ts) :
    (start_timer r id now).timer_states id
      = some { ts with start_time := some now, is_running := true } ∧
    status (start_timer r id now) id = Status.Running := by
  refine ⟨start_states_self r id now ts h, ?_⟩
  unfold status
  rw [start_states_self r id now ts h]
  simp

theorem C7_start_unconditional_witness :
    (start_timer rOne 0 5).timer_states 0 = some ⟨some 5, true, 75⟩ ∧
    status (start_timer rOne 0 5) 0 = Status.Running :=
  C7_start_unconditional rOne 0 5 ⟨some 0, true, 75⟩ rfl

/-- Claim C7, counterexample to the claim as stated: timer 0 is Running with
`startedAt = 0`; starting it again at time 5 is not a no-op — `startedAt`
becomes 5. -/
theorem C7_counterexample :
    status rOne 0 = Status.Running ∧
    rOne.timer_states 0 = some ⟨some 0, true, 75⟩ ∧
    (start_timer rOne 0 5).timer_states 0 = some ⟨some 5, true, 75⟩ ∧
    some (⟨some 5, true, 75⟩ : TimerState) ≠ some (⟨some 0, true, 75⟩ : TimerState) := by
  refine ⟨rfl, rfl, rfl, ?_⟩
  intro hcontra
  simp at hcontra

/- ------------------------------------------------------------------
   Claim C2.
   ------------------------------------------------------------------ -/

/-- Claim C2 (amended): `stop` halts the countdown but does not preserve the
elapsed progress: after `stop`, the remaining-time query reports the full
configured duration again (at any query instant), and a subsequent `start`
restarts the countdown from the full duration with `startedAt` reassigned to
the new start instant. -/
theorem C2_stop_discards_progress (r : Registry) (id : ℕ) (ts : TimerState)
    (h : r.timer_states id = some ts) (now t0 e : ℚ) :
    get_time_remaining (stop_timer r id) now id = some (ts.duration * 60) ∧
    get_time_remaining (start_timer (stop_timer r id) id t0) (t0 + e) id
      = some (max 0 (ts.duration * 60 - e)) := by
  have hstop : (stop_timer r id).timer_states id = some { ts with is_running := false } := by
    unfold stop_timer
    rw [h]
    simp
  constructor
  · unfold get_time_remaining
    rw [hstop]
    cases ts.start_time <;> simp
  · rw [show get_time_remaining (start_timer (stop_timer r id) id t0) (t0 + e) id
        = some (max 0 (ts.duration * 60 - (t0 + e - t0))) from ?_]
    · norm_num
    · unfold get_time_remaining
      rw [start_states_self _ id t0 _ hstop]

theorem C2_stop_discards_progress_witness :
    get_time_remaining (stop_timer rOne 0) 10 0 = some ((75 : ℚ) * 60) ∧
    get_time_remaining (start_timer (stop_timer rOne 0) 0 100) (100 + 7) 0
      = some (max 0 ((75 : ℚ) * 60 - 7)) :=
  C2_stop_discards_progress rOne 0 ⟨some 0, true, 75⟩ rfl 10 100 7

/-- Claim C2, counterexample to the claim as stated: timer 0 runs from time 0
with a 75-minute duration; at time 10 the remaining time is 4490 s, but after
`stop` the query reports the full 4500 s, and restarting at time 100 also
resumes from the full 4500 s rather than the preserved 4490 s. -/
theorem C2_counterexample :
    get_time_remaining rOne 10 0 = some 4490 ∧
    get_time_remaining (stop_timer rOne 0) 10 0 = some 4500 ∧
    get_time_remaining (start_timer (stop_timer rOne 0) 0 100) 100 0 = some 4500 ∧
    (some (4500 : ℚ) ≠ some (4490 : ℚ)) := by
  refine ⟨?_, ?_, ?_, by norm_num⟩
  · norm_num [rOne, applyOps, applyOp, initialize_timer_state, start_timer,
      initialRegistry, defaultConfigs, get_time_remaining]
  · norm_num [rOne, applyOps, applyOp, initialize_timer_state, start_timer, stop_timer,
      initialRegistry, defaultConfigs, get_time_remaining]
  · norm_num [rOne, applyOps, applyOp, initialize_timer_state, start_timer, stop_timer,
      initialRegistry, defaultConfigs, get_time_remaining]

/- ------------------------------------------------------------------
   Claim C1.
   ------------------------------------------------------------------ -/

/-- Claim C1 (amended): the remaining-time query is a pure function of
`(start_time, is_running, duration, now)`: for a Running timer (with its
`startedAt` defined) it returns `max(0, duration*60 - (now - startedAt))`, and
for a Ready timer it returns the full `duration*60`; but for a Finished timer
it also returns the full `duration*60`, not 0 — the query returns the full
duration for every non-running timer. -/
theorem C1_remaining_by_status (r : Registry) (id : ℕ) (ts : TimerState) (now : ℚ)
    (h : r.timer_states id = some ts) :
    (∀ s, ts.start_time = some s → ts.is_running = true →
        get_time_remaining r now id = some (max 0 (ts.duration * 60 - (now - s)))) ∧
    (status r id = Status.Ready → get_time_remaining r now id = some (ts.duration * 60)) ∧
    (status r id = Status.Finished → get_time_remaining r now id = some (ts.duration * 60)) := by
  obtain ⟨st, run, dur⟩ := ts
  cases st <;> cases run <;>
    simp_all [get_time_remaining, status]

theorem C1_remaining_by_status_witness :
    get_time_remaining rOne 10 0 = some (max 0 ((75 : ℚ) * 60 - (10 - 0))) :=
  (C1_remaining_by_status rOne 0 ⟨some 0, true, 75⟩ 10 rfl).1 0 rfl rfl

/-- Claim C1, counterexample to the claim as stated: after timer 0 (75 min,
started at 0) finishes at the tick at time 4500, its status is Finished, yet
the remaining-time query returns the full 4500 seconds, not 0. -/
theorem C1_counterexample :
    status (tick rOne 4500).1 0 = Status.Finished ∧
    get_time_remaining (tick rOne 4500).1 4500 0 = some 4500 ∧
    (some (4500 : ℚ) ≠ some (0 : ℚ)) := by
  refine ⟨?_, ?_, by norm_num⟩
  · norm_num [rOne, tick, applyOps, applyOp, tick_one, tick_check, initialize_timer_state, start_timer,
      initialRegistry, defaultConfigs, get_time_remaining, status, List.range_succ]
  · norm_num [rOne, tick, applyOps, applyOp, tick_one, tick_check, initialize_timer_state, start_timer,
      initialRegistry, defaultConfigs, get_time_remaining, List.range_succ]

/- ------------------------------------------------------------------
   Claim C5.
   ------------------------------------------------------------------ -/

theorem configs_set_get (l : List TimerConfig) (i : ℕ) (c cfg : TimerConfig)
    (h : l[i]? = some cfg) : (l.set i c)[i]? = some c := by
  have hlen : i < l.length := by
    by_contra hge
    rw [List.getElem?_eq_none (by omega)] at h
    exact Option.noConfusion h
  exact List.getElem?_set_eq_of_lt c hlen

/-- Claim C5 (amended): while a timer is Running, updating its minutes leaves
the effective duration — the running snapshot in its state — unchanged (the
stored config minutes still changes); when it is not Running, a changed
minutes value takes effect in the state immediately; the name updates
regardless of the running state; but the notification tone (frequency) also
updates regardless of the running state — it is not frozen mid-run. -/
theorem C5_configure_fields (r : Registry) (i : ℕ) (cfg : TimerConfig)
    (hc : r.timer_configs[i]? = some cfg) (ts : TimerState)
    (hts : r.timer_states i = some ts) (nm : String) (m : ℚ) (fq : ℕ) :
    (ts.is_running = true → (configure_minutes r i m).timer_states i = some ts) ∧
    (ts.is_running = false → m ≠ cfg.minutes →
        (configure_minutes r i m).timer_states i = some { ts with duration := m }) ∧
    (m ≠ cfg.minutes →
        (configure_minutes r i m).timer_configs[i]? = some { cfg with minutes := m }) ∧
    (nm ≠ cfg.name →
        (configure_name r i nm).timer_configs[i]? = some { cfg with name := nm }) ∧
    (fq ≠ cfg.frequency →
        (configure_frequency r i fq).timer_configs[i]? = some { cfg with frequency := fq }) := by
  refine ⟨?_, ?_, ?_, ?_, ?_⟩
  · intro hrun
    by_cases hm : m = cfg.minutes
    · simp [configure_minutes, hc, hm, hts]
    · simp [configure_minutes, hc, hm, hts, hrun]
  · intro hrun hm
    simp [configure_minutes, hc, hm, hts, hrun]
  · intro hm
    have hgoal : (r.timer_configs.set i { cfg with minutes := m })[i]?
        = some { cfg with minutes := m } :=
      configs_set_get r.timer_configs i _ cfg hc
    by_cases hrun : ts.is_running = false
    · simpa [configure_minutes, hc, hm, hts, hrun] using hgoal
    · simpa [configure_minutes, hc, hm, hts, hrun] using hgoal
  · intro hnm
    simpa [configure_name, hc, hnm] using
      configs_set_get r.timer_configs i _ cfg hc
  · intro hfq
    simpa [configure_frequency, hc, hfq] using
      configs_set_get r.timer_configs i _ cfg hc

theorem C5_configure_fields_witness :
    ((⟨some 0, true, 75⟩ : TimerState).is_running = true →
        (configure_minutes rOne 0 30).timer_states 0 = some ⟨some 0, true, 75⟩) ∧
    ((⟨some 0, true, 75⟩ : TimerState).is_running = false → (30 : ℚ) ≠ (75 : ℚ) →
        (configure_minutes rOne 0 30).timer_states 0 = some ⟨some 0, true, 30⟩) ∧
    ((30 : ℚ) ≠ (75 : ℚ) →
        (configure_minutes rOne 0 30).timer_configs[0]? = some ⟨"Standard Time", 30, 440⟩) ∧
    (("Other") ≠ ("Standard Time") →
        (configure_name rOne 0 ("Other")).timer_configs[0]? = some ⟨"Other", 75, 440⟩) ∧
    ((523 : ℕ) ≠ 440 →
        (configure_frequency rOne 0 523).timer_configs[0]? = some ⟨"Standard Time", 75, 523⟩) :=
  C5_configure_fields rOne 0 ⟨"Standard Time", 75, 440⟩ rfl ⟨some 0, true, 75⟩ rfl
    ("Other") 30 523

/-- Claim C5, counterexample to the claim as stated: timer 0 is Running with
tone 440 Hz; updating the tone to 523 Hz is not a no-op — the stored frequency
changes, and the notification fired when the run finishes uses the new 523 Hz
tone. -/
theorem C5_counterexample :
    status rOne 0 = Status.Running ∧
    (rOne.timer_configs[0]?).map TimerConfig.frequency = some 440 ∧
    ((configure_frequency rOne 0 523).timer_configs[0]?).map TimerConfig.frequency
      = some 523 ∧
    (tick (configure_frequency rOne 0 523) 4500).2 = [(0, 523, "Standard Time")] ∧
    (523 : ℕ) ≠ 440 := by
  refine ⟨rfl, rfl, rfl, ?_, by norm_num⟩
  norm_num [rOne, tick, applyOps, applyOp, tick_one, tick_check, initialize_timer_state,
    start_timer, configure_frequency, initialRegistry, defaultConfigs, get_time_remaining,
    List.range_succ]

/- ------------------------------------------------------------------
   The startedAt invariant (claim C4).
   ------------------------------------------------------------------ -/

theorem inv_initialRegistry : Inv initialRegistry := by
  constructor
  · intro id hfin
    exact absurd hfin (by simp [initialRegistry])
  · intro id ts hts
    exact absurd hts (by simp [initialRegistry])

theorem inv_init_state (r : Registry) (id : ℕ) (d : ℚ) (h : Inv r) :
    Inv (initialize_timer_state r id d) := by
  obtain ⟨h1, h2⟩ := h
  unfold initialize_timer_state
  cases hx : r.timer_states id with
  | some ts => exact ⟨h1, h2⟩
  | none =>
    constructor
    · intro j hfin
      obtain ⟨tsj, htsj, hstj⟩ := h1 j hfin
      by_cases hj : j = id
      · subst hj
        rw [hx] at htsj
        exact Option.noConfusion htsj
      · exact ⟨tsj, by simpa [hj] using htsj, hstj⟩
    · intro j tsj htsj hrun
      by_cases hj : j = id
      · subst hj
        simp at htsj
        rw [← htsj] at hrun
        exact Bool.noConfusion hrun
      · exact h2 j tsj (by simpa [hj] using htsj) hrun

theorem inv_start (r : Registry) (id : ℕ) (now : ℚ) (h : Inv r) :
    Inv (start_timer r id now) := by
  obtain ⟨h1, h2⟩ := h
  unfold start_timer
  cases hx : r.timer_states id with
  | none => exact ⟨h1, h2⟩
  | some ts =>
    constructor
    · intro j hfin
      by_cases hj : j = id
      · subst hj
        exact ⟨{ ts with start_time := some now, is_running := true }, by simp, by simp⟩
      · obtain ⟨tsj, htsj, hstj⟩ := h1 j hfin
        exact ⟨tsj, by simpa [hj] using htsj, hstj⟩
    · intro j tsj htsj hrun
      by_cases hj : j = id
      · subst hj
        simp at htsj
        rw [← htsj]
        simp
      · exact h2 j tsj (by simpa [hj] using htsj) hrun

theorem inv_stop (r : Registry) (id : ℕ) (h : Inv r) : Inv (stop_timer r id) := by
  obtain ⟨h1, h2⟩ := h
  unfold stop_timer
  cases hx : r.timer_states id with
  | none => exact ⟨h1, h2⟩
  | some ts =>
    constructor
    · intro j hfin
      by_cases hj : j = id
      · subst hj
        obtain ⟨tsj, htsj, hstj⟩ := h1 j hfin
        rw [hx] at htsj
        injection htsj with hh
        subst hh
        exact ⟨{ ts with is_running := false }, by simp, by simpa using hstj⟩
      · obtain ⟨tsj, htsj, hstj⟩ := h1 j hfin
        exact ⟨tsj, by simpa [hj] using htsj, hstj⟩
    · intro j tsj htsj hrun
      by_cases hj : j = id
      · subst hj
        simp at htsj
        rw [← htsj] at hrun
        exact Bool.noConfusion hrun
      · exact h2 j tsj (by simpa [hj] using htsj) hrun

theorem inv_reset (r : Registry) (id : ℕ) (h : Inv r) : Inv (reset_timer r id) := by
  obtain ⟨h1, h2⟩ := h
  unfold reset_timer
  cases hx : r.timer_states id with
  | none => exact ⟨h1, h2⟩
  | some ts =>
    constructor
    · intro j hfin
      by_cases hj : j = id
      · subst hj
        simp at hfin
      · obtain ⟨tsj, htsj, hstj⟩ := h1 j (by simpa [hj] using hfin)
        exact ⟨tsj, by simpa [hj] using htsj, hstj⟩
    · intro j tsj htsj hrun
      by_cases hj : j = id
      · subst hj
        simp at htsj
        rw [← htsj] at hrun
        exact Bool.noConfusion hrun
      · exact h2 j tsj (by simpa [hj] using htsj) hrun

theorem inv_configure_name (r : Registry) (i : ℕ) (nm : String) (h : Inv r) :
    Inv (configure_name r i nm) := by
  obtain ⟨h1, h2⟩ := h
  unfold configure_name
  cases r.timer_configs[i]? with
  | none => exact ⟨h1, h2⟩
  | some cfg =>
    dsimp only
    by_cases hnm : nm ≠ cfg.name
    · rw [if_pos hnm]
      exact ⟨h1, h2⟩
    · rw [if_neg hnm]
      exact ⟨h1, h2⟩

theorem inv_configure_frequency (r : Registry) (i : ℕ) (fq : ℕ) (h : Inv r) :
    Inv (configure_frequency r i fq) := by
  obtain ⟨h1, h2⟩ := h
  unfold configure_frequency
  cases r.timer_configs[i]? with
  | none => exact ⟨h1, h2⟩
  | some cfg =>
    dsimp only
    by_cases hfq : fq ≠ cfg.frequency
    · rw [if_pos hfq]
      exact ⟨h1, h2⟩
    · rw [if_neg hfq]
      exact ⟨h1, h2⟩

theorem inv_configure_minutes (r : Registry) (i : ℕ) (m : ℚ) (h : Inv r) :
    Inv (configure_minutes r i m) := by
  obtain ⟨h1, h2⟩ := h
  unfold configure_minutes
  cases hc : r.timer_configs[i]? with
  | none => exact ⟨h1, h2⟩
  | some cfg =>
    dsimp only
    by_cases hm : m ≠ cfg.minutes
    · rw [if_pos hm]
      cases hx : r.timer_states i with
      | none => exact ⟨h1, h2⟩
      | some ts =>
        dsimp only
        by_cases hrf : ts.is_running = false
        · rw [if_pos hrf]
          constructor
          · intro j hfin
            by_cases hj : j = i
            · subst hj
              obtain ⟨tsj, htsj, hstj⟩ := h1 j hfin
              rw [hx] at htsj
              injection htsj with hh
              subst hh
              exact ⟨{ ts with duration := m }, by simp, by simpa using hstj⟩
            · obtain ⟨tsj, htsj, hstj⟩ := h1 j hfin
              exact ⟨tsj, by simpa [hj] using htsj, hstj⟩
          · intro j tsj htsj hrun
            by_cases hj : j = i
            · subst hj
              simp at htsj
              rw [← htsj] at hrun
              simp at hrun
              exact absurd hrf (by simp [hrun])
            · exact h2 j tsj (by simpa [hj] using htsj) hrun
        · rw [if_neg hrf]
          exact ⟨h1, h2⟩
    · rw [if_neg hm]
      exact ⟨h1, h2⟩

theorem inv_tick_check (now : ℚ) (r : Registry) (i : ℕ) (cfg : TimerConfig)
    (entries : List (ℕ × ℕ × String)) (h : Inv r) :
    Inv (tick_check now r i cfg entries).1 := by
  obtain ⟨h1, h2⟩ := h
  unfold tick_check
  cases hx : r.timer_states i with
  | none => exact ⟨h1, h2⟩
  | some ts =>
    cases hrem : get_time_remaining r now i with
    | none => exact ⟨h1, h2⟩
    | some rem =>
      dsimp only
      by_cases hcond : rem ≤ 0 ∧ ts.is_running = true ∧ r.finished_timers i = false
      · rw [if_pos hcond]
        have hstart : ts.start_time ≠ none := h2 i ts hx hcond.2.1
        constructor
        · intro j hfin
          by_cases hj : j = i
          · subst hj
            exact ⟨{ ts with is_running := false }, by simp, by simpa using hstart⟩
          · obtain ⟨tsj, htsj, hstj⟩ := h1 j (by simpa [hj] using hfin)
            exact ⟨tsj, by simpa [hj] using htsj, hstj⟩
        · intro j tsj htsj hrun
          by_cases hj : j = i
          · subst hj
            simp at htsj
            rw [← htsj] at hrun
            exact Bool.noConfusion hrun
          · exact h2 j tsj (by simpa [hj] using htsj) hrun
      · rw [if_neg hcond]
        exact ⟨h1, h2⟩

theorem inv_tick_one (now : ℚ) (acc : Registry × List (ℕ × ℕ × String)) (i : ℕ)
    (h : Inv acc.1) : Inv (tick_one now acc i).1 := by
  unfold tick_one
  cases acc.1.timer_configs[i]? with
  | none => exact h
  | some cfg => exact inv_tick_check now _ i cfg acc.2 (inv_init_state acc.1 i cfg.minutes h)

theorem inv_tick_fold (now : ℚ) (l : List ℕ) :
    ∀ acc : Registry × List (ℕ × ℕ × String), Inv acc.1 →
      Inv (l.foldl (tick_one now) acc).1 := by
  induction l with
  | nil => intro acc h; exact h
  | cons i rest ih =>
    intro acc h
    exact ih (tick_one now acc i) (inv_tick_one now acc i h)

theorem inv_applyOp (r : Registry) (op : Op) (h : Inv r) : Inv (applyOp r op) := by
  cases op with
  | init id d => exact inv_init_state r id d h
  | start id now => exact inv_start r id now h
  | stop id => exact inv_stop r id h
  | reset id => exact inv_reset r id h
  | tickOp now => exact inv_tick_fold now (List.range r.num_timers) (r, []) h
  | confName i s => exact inv_configure_name r i s h
  | confMinutes i m => exact inv_configure_minutes r i m h
  | confFreq i fq => exact inv_configure_frequency r i fq h
  | setNum n =>
    unfold applyOp
    dsimp only
    by_cases hn : 1 ≤ n ∧ n ≤ 6
    · rw [if_pos hn]
      exact h
    · rw [if_neg hn]
      exact h

theorem inv_applyOps (ops : List Op) : ∀ r : Registry, Inv r → Inv (applyOps r ops) := by
  induction ops with
  | nil => intro r h; exact h
  | cons op rest ih =>
    intro r h
    exact ih (applyOp r op) (inv_applyOp r op h)

/-- Claim C4 (amended): in every reachable session state, a timer whose status
is Running or Finished has a defined `startedAt`; the converse direction of
the claimed "iff" fails — a timer stopped mid-run keeps its `startedAt` while
its status is Ready. -/
theorem C4_running_or_finished_started (r : Registry) (hr : Reachable r) (id : ℕ)
    (ts : TimerState) (hts : r.timer_states id = some ts)
    (hst : status r id = Status.Running ∨ status r id = Status.Finished) :
    ts.start_time ≠ none := by
  obtain ⟨ops, rfl⟩ := hr
  have hinv : Inv (applyOps initialRegistry ops) :=
    inv_applyOps ops initialRegistry inv_initialRegistry
  rcases hst with hst | hst
  · have hrun : ts.is_running = true := by
      unfold status at hst
      rw [hts] at hst
      dsimp only at hst
      by_cases hb : ts.is_running = true
      · exact hb
      · rw [if_neg hb] at hst
        split at hst
        · exact Status.noConfusion hst
        · exact Status.noConfusion hst
    exact hinv.2 id ts hts hrun
  · have hnotrun : ¬ ts.is_running = true := by
      intro hb
      unfold status at hst
      rw [hts] at hst
      dsimp only at hst
      rw [if_pos hb] at hst
      exact Status.noConfusion hst
    have hfin : (applyOps initialRegistry ops).finished_timers id = true := by
      unfold status at hst
      rw [hts] at hst
      dsimp only at hst
      rw [if_neg hnotrun] at hst
      by_cases hf : (applyOps initialRegistry ops).finished_timers id = true
      · exact hf
      · rw [if_neg hf] at hst
        exact Status.noConfusion hst
    obtain ⟨ts2, hts2, hst2⟩ := hinv.1 id hfin
    rw [hts] at hts2
    injection hts2 with hh
    rw [hh]
    exact hst2

theorem C4_running_or_finished_started_witness :
    rOne.timer_states 0 = some ⟨some 0, true, 75⟩ ∧
    (⟨some 0, true, 75⟩ : TimerState).start_time ≠ none :=
  ⟨rfl, C4_running_or_finished_started rOne
    ⟨[Op.setNum 1, Op.init 0 75, Op.start 0 0], rfl⟩ 0 ⟨some 0, true, 75⟩ rfl
    (Or.inl rfl)⟩

/-- Claim C4, counterexample to the claim as stated: stopping the running
timer 0 yields a reachable state whose status is Ready while `startedAt` is
still defined (= 0), so "startedAt is defined iff status ∈ {Running,
Finished}" fails. -/
theorem C4_counterexample :
    Reachable (stop_timer rOne 0) ∧
    status (stop_timer rOne 0) 0 = Status.Ready ∧
    (stop_timer rOne 0).timer_states 0 = some ⟨some 0, false, 75⟩ ∧
    ((⟨some 0, false, 75⟩ : TimerState).start_time ≠ none) := by
  refine ⟨⟨[Op.setNum 1, Op.init 0 75, Op.start 0 0, Op.stop 0], rfl⟩, rfl, rfl, by simp⟩

/- ------------------------------------------------------------------
   Monotonicity of the finished set under ticks (claims C6, C10).
   ------------------------------------------------------------------ -/

theorem initialize_states_keep (r : Registry) (i : ℕ) (d : ℚ) (id : ℕ) (ts : TimerState)
    (h : r.timer_states id = some ts) :
    (initialize_timer_state r i d).timer_states id = some ts := by
  by_cases hji : id = i
  · subst hji
    rw [initialize_states_of_some r id d ts h]
    exact h
  · rw [initialize_states_ne r i d id hji]
    exact h

theorem tick_check_keeps (now : ℚ) (r : Registry) (i : ℕ) (cfg : TimerConfig)
    (entries : List (ℕ × ℕ × String)) (id : ℕ) (hfin : r.finished_timers id = true) :
    (tick_check now r i cfg entries).1.finished_timers id = true ∧
    (id ∉ newlyIdsOf entries → id ∉ newlyIdsOf (tick_check now r i cfg entries).2) ∧
    (∀ ts, r.timer_states id = some ts →
        (tick_check now r i cfg entries).1.timer_states id = some ts) := by
  unfold tick_check
  cases hx : r.timer_states i with
  | none => exact ⟨hfin, fun h => h, fun ts h => h⟩
  | some ts =>
    cases hrem : get_time_remaining r now i with
    | none => exact ⟨hfin, fun h => h, fun ts h => h⟩
    | some rem =>
      dsimp only
      by_cases hcond : rem ≤ 0 ∧ ts.is_running = true ∧ r.finished_timers i = false
      · rw [if_pos hcond]
        have hne : id ≠ i := by
          intro he
          rw [he] at hfin
          rw [hcond.2.2] at hfin
          exact Bool.noConfusion hfin
        refine ⟨?_, ?_, ?_⟩
        · simp [hne, hfin]
        · intro hnotin
          simp only [newlyIdsOf, List.map_append, List.mem_append] at *
          intro hmem
          rcases hmem with hmem | hmem
          · exact hnotin hmem
          · simp at hmem
            exact hne hmem
        · intro ts2 hts2
          simp only [if_neg hne]
          exact hts2
      · rw [if_neg hcond]
        exact ⟨hfin, fun h => h, fun ts2 h => h⟩

theorem tick_check_new_fin (now : ℚ) (r : Registry) (i : ℕ) (cfg : TimerConfig)
    (entries : List (ℕ × ℕ × String)) (id : ℕ)
    (h : id ∈ newlyIdsOf entries → r.finished_timers id = true) :
    id ∈ newlyIdsOf (tick_check now r i cfg entries).2 →
      (tick_check now r i cfg entries).1.finished_timers id = true := by
  unfold tick_check
  cases hx : r.timer_states i with
  | none => exact h
  | some ts =>
    cases hrem : get_time_remaining r now i with
    | none => exact h
    | some rem =>
      dsimp only
      by_cases hcond : rem ≤ 0 ∧ ts.is_running = true ∧ r.finished_timers i = false
      · rw [if_pos hcond]
        intro hmem
        simp only [newlyIdsOf, List.map_append, List.mem_append] at hmem
        by_cases hji : id = i
        · simp [hji]
        · rcases hmem with hmem | hmem
          · have hfin : r.finished_timers id = true := h (by simpa [newlyIdsOf] using hmem)
            simp [hji, hfin]
          · simp at hmem
            exact absurd hmem hji
      · rw [if_neg hcond]
        exact h

theorem tick_one_keeps (now : ℚ) (acc : Registry × List (ℕ × ℕ × String)) (i id : ℕ)
    (hfin : acc.1.finished_timers id = true) :
    (tick_one now acc i).1.finished_timers id = true ∧
    (id ∉ newlyIdsOf acc.2 → id ∉ newlyIdsOf (tick_one now acc i).2) ∧
    (∀ ts, acc.1.timer_states id = some ts →
        (tick_one now acc i).1.timer_states id = some ts) := by
  unfold tick_one
  cases hc : acc.1.timer_configs[i]? with
  | none => exact ⟨hfin, fun h => h, fun ts h => h⟩
  | some cfg =>
    dsimp only
    have hfin2 : (initialize_timer_state acc.1 i cfg.minutes).finished_timers id = true := by
      rw [initialize_finished]
      exact hfin
    obtain ⟨ha, hb, hc2⟩ :=
      tick_check_keeps now (initialize_timer_state acc.1 i cfg.minutes) i cfg acc.2 id hfin2
    exact ⟨ha, hb, fun ts hts => hc2 ts (initialize_states_keep acc.1 i cfg.minutes id ts hts)⟩

theorem tick_one_new_fin (now : ℚ) (acc : Registry × List (ℕ × ℕ × String)) (i id : ℕ)
    (h : id ∈ newlyIdsOf acc.2 → acc.1.finished_timers id = true) :
    id ∈ newlyIdsOf (tick_one now acc i).2 →
      (tick_one now acc i).1.finished_timers id = true := by
  unfold tick_one
  cases hc : acc.1.timer_configs[i]? with
  | none => exact h
  | some cfg =>
    dsimp only
    apply tick_check_new_fin
    intro hmem
    rw [initialize_finished]
    exact h hmem

theorem tick_fold_keeps (now : ℚ) (id : ℕ) (l : List ℕ) :
    ∀ acc : Registry × List (ℕ × ℕ × String), acc.1.finished_timers id = true →
      (l.foldl (tick_one now) acc).1.finished_timers id = true ∧
      (id ∉ newlyIdsOf acc.2 → id ∉ newlyIdsOf (l.foldl (tick_one now) acc).2) ∧
      (∀ ts, acc.1.timer_states id = some ts →
          (l.foldl (tick_one now) acc).1.timer_states id = some ts) := by
  induction l with
  | nil => intro acc h; exact ⟨h, fun h2 => h2, fun ts h3 => h3⟩
  | cons i rest ih =>
    intro acc h
    obtain ⟨h1, h2, h3⟩ := tick_one_keeps now acc i id h
    obtain ⟨g1, g2, g3⟩ := ih (tick_one now acc i) h1
    exact ⟨g1, fun hn => g2 (h2 hn), fun ts hts => g3 ts (h3 ts hts)⟩

theorem tick_fold_new_fin (now : ℚ) (id : ℕ) (l : List ℕ) :
    ∀ acc : Registry × List (ℕ × ℕ × String),
      (id ∈ newlyIdsOf acc.2 → acc.1.finished_timers id = true) →
      (id ∈ newlyIdsOf (l.foldl (tick_one now) acc).2 →
        (l.foldl (tick_one now) acc).1.finished_timers id = true) := by
  induction l with
  | nil => intro acc h; exact h
  | cons i rest ih =>
    intro acc h
    exact ih (tick_one now acc i) (tick_one_new_fin now acc i id h)

theorem applyOp_keeps_finished (r : Registry) (op : Op) (id : ℕ)
    (hop : op ≠ Op.reset id) (h : r.finished_timers id = true) :
    (applyOp r op).finished_timers id = true := by
  cases op with
  | init i d =>
    show (initialize_timer_state r i d).finished_timers id = true
    rw [initialize_finished]
    exact h
  | start i t =>
    show (start_timer r i t).finished_timers id = true
    rw [start_finished]
    exact h
  | stop i =>
    show (stop_timer r i).finished_timers id = true
    rw [stop_finished]
    exact h
  | reset i =>
    have hne : i ≠ id := by
      intro he
      subst he
      exact hop rfl
    show (reset_timer r i).finished_timers id = true
    unfold reset_timer
    cases r.timer_states i with
    | none => exact h
    | some ts =>
      dsimp only
      rw [if_neg (Ne.symm hne)]
      exact h
  | tickOp t =>
    exact (tick_fold_keeps t id (List.range r.num_timers) (r, []) h).1
  | confName i s =>
    show (configure_name r i s).finished_timers id = true
    unfold configure_name
    cases r.timer_configs[i]? with
    | none => exact h
    | some cfg =>
      dsimp only
      by_cases hnm : s ≠ cfg.name
      · rw [if_pos hnm]; exact h
      · rw [if_neg hnm]; exact h
  | confMinutes i m =>
    show (configure_minutes r i m).finished_timers id = true
    unfold configure_minutes
    cases r.timer_configs[i]? with
    | none => exact h
    | some cfg =>
      dsimp only
      by_cases hm : m ≠ cfg.minutes
      · rw [if_pos hm]
        cases r.timer_states i with
        | none => exact h
        | some ts =>
          dsimp only
          by_cases hrf : ts.is_running = false
          · rw [if_pos hrf]; exact h
          · rw [if_neg hrf]; exact h
      · rw [if_neg hm]; exact h
  | confFreq i fq =>
    show (configure_frequency r i fq).finished_timers id = true
    unfold configure_frequency
    cases r.timer_configs[i]? with
    | none => exact h
    | some cfg =>
      dsimp only
      by_cases hfq : fq ≠ cfg.frequency
      · rw [if_pos hfq]; exact h
      · rw [if_neg hfq]; exact h
  | setNum n =>
    show (if 1 ≤ n ∧ n ≤ 6 then { r with num_timers := n } else r).finished_timers id = true
    by_cases hn : 1 ≤ n ∧ n ≤ 6
    · rw [if_pos hn]; exact h
    · rw [if_neg hn]; exact h

theorem applyOps_keeps_finished (ops : List Op) :
    ∀ (r : Registry) (id : ℕ), (∀ op ∈ ops, op ≠ Op.reset id) →
      r.finished_timers id = true → (applyOps r ops).finished_timers id = true := by
  induction ops with
  | nil => intro r id hops h; exact h
  | cons op rest ih =>
    intro r id hops h
    exact ih (applyOp r op) id (fun o ho => hops o (List.mem_cons_of_mem op ho))
      (applyOp_keeps_finished r op id (hops op (List.mem_cons_self op rest)) h)

/- Concrete evaluation facts for the run in which timer 0 of `rOne` finishes
at time 4500. -/

theorem tick_rOne_newly : (tick rOne 4500).2 = [(0, 440, "Standard Time")] := by
  norm_num [rOne, tick, applyOps, applyOp, tick_one, tick_check, initialize_timer_state,
    start_timer, initialRegistry, defaultConfigs, get_time_remaining, List.range_succ]

theorem tick_rOne_fin : (tick rOne 4500).1.finished_timers 0 = true := by
  norm_num [rOne, tick, applyOps, applyOp, tick_one, tick_check, initialize_timer_state,
    start_timer, initialRegistry, defaultConfigs, get_time_remaining, List.range_succ]

theorem tick_rOne_state : (tick rOne 4500).1.timer_states 0 = some ⟨some 0, false, 75⟩ := by
  norm_num [rOne, tick, applyOps, applyOp, tick_one, tick_check, initialize_timer_state,
    start_timer, initialRegistry, defaultConfigs, get_time_remaining, List.range_succ]

/- ------------------------------------------------------------------
   Claim C6.
   ------------------------------------------------------------------ -/

/-- Claim C6: the tick evaluation moves a timer from Running to Finished
exactly once per run: once a timer id has been reported in the newly-finished
list of some tick, no later tick — after any sequence of further user actions
that does not reset that timer — ever reports it in the newly-finished list
again. -/
theorem C6_finish_exactly_once (r : Registry) (now : ℚ) (id : ℕ)
    (h : id ∈ newlyIdsOf (tick r now).2)
    (ops : List Op) (hops : ∀ op ∈ ops, op ≠ Op.reset id) (now2 : ℚ) :
    id ∉ newlyIdsOf (tick (applyOps (tick r now).1 ops) now2).2 := by
  have hfin : (tick r now).1.finished_timers id = true := by
    refine tick_fold_new_fin now id (List.range r.num_timers) (r, []) ?_ h
    intro hmem
    simp [newlyIdsOf] at hmem
  have hfin2 : (applyOps (tick r now).1 ops).finished_timers id = true :=
    applyOps_keeps_finished ops (tick r now).1 id hops hfin
  have hkeep := (tick_fold_keeps now2 id
    (List.range (applyOps (tick r now).1 ops).num_timers)
    ((applyOps (tick r now).1 ops), []) hfin2).2.1
  exact hkeep (by simp [newlyIdsOf])

theorem C6_finish_exactly_once_witness :
    (0 ∈ newlyIdsOf (tick rOne 4500).2) ∧
    ((∀ op ∈ ([Op.stop 0] : List Op), op ≠ Op.reset 0)) ∧
    0 ∉ newlyIdsOf (tick (applyOps (tick rOne 4500).1 [Op.stop 0]) 9000).2 :=
  ⟨by simp [tick_rOne_newly, newlyIdsOf], by simp,
    C6_finish_exactly_once rOne 4500 0 (by simp [tick_rOne_newly, newlyIdsOf])
      [Op.stop 0] (by simp) 9000⟩

/- ------------------------------------------------------------------
   Claim C10.
   ------------------------------------------------------------------ -/

/-- Claim C10: starting a Finished timer without an intervening reset leaves
it in the `finished_timers` tracking set; the next ticks never report it as
newly finished again (no second notification) and never transition it out of
Running (its state is untouched by `tick`); the finished marker survives any
action sequence avoiding `reset` of that timer, and `reset` does remove it. -/
theorem C10_restart_keeps_notified (r : Registry) (id : ℕ) (t now : ℚ) (ts : TimerState)
    (hfin : r.finished_timers id = true) (hts : r.timer_states id = some ts) :
    (start_timer r id t).finished_timers id = true ∧
    (start_timer r id t).timer_states id
        = some { ts with start_time := some t, is_running := true } ∧
    id ∉ newlyIdsOf (tick (start_timer r id t) now).2 ∧
    (tick (start_timer r id t) now).1.timer_states id
        = some { ts with start_time := some t, is_running := true } ∧
    (∀ ops : List Op, (∀ op ∈ ops, op ≠ Op.reset id) →
        (applyOps (start_timer r id t) ops).finished_timers id = true) ∧
    (reset_timer r id).finished_timers id = false := by
  have hfin2 : (start_timer r id t).finished_timers id = true := by
    rw [start_finished]
    exact hfin
  have hsts : (start_timer r id t).timer_states id
      = some { ts with start_time := some t, is_running := true } :=
    start_states_self r id t ts hts
  obtain ⟨k1, k2, k3⟩ := tick_fold_keeps now id
    (List.range (start_timer r id t).num_timers) ((start_timer r id t), []) hfin2
  refine ⟨hfin2, hsts, ?_, ?_, ?_, ?_⟩
  · exact k2 (by simp [newlyIdsOf])
  · exact k3 _ hsts
  · intro ops hops
    exact applyOps_keeps_finished ops (start_timer r id t) id hops hfin2
  · unfold reset_timer
    rw [hts]
    dsimp only
    simp

theorem C10_restart_keeps_notified_witness :
    ((start_timer (tick rOne 4500).1 0 5000).finished_timers 0 = true) ∧
    ((start_timer (tick rOne 4500).1 0 5000).timer_states 0 = some ⟨some 5000, true, 75⟩) ∧
    (0 ∉ newlyIdsOf (tick (start_timer (tick rOne 4500).1 0 5000) 9500).2) ∧
    ((tick (start_timer (tick rOne 4500).1 0 5000) 9500).1.timer_states 0
        = some ⟨some 5000, true, 75⟩) ∧
    (∀ ops : List Op, (∀ op ∈ ops, op ≠ Op.reset 0) →
        (applyOps (start_timer (tick rOne 4500).1 0 5000) ops).finished_timers 0 = true) ∧
    ((reset_timer (tick rOne 4500).1 0).finished_timers 0 = false) :=
  C10_restart_keeps_notified (tick rOne 4500).1 0 5000 9500 ⟨some 0, false, 75⟩
    tick_rOne_fin tick_rOne_state

/- ------------------------------------------------------------------
   The tone synthesizer: bounds on the faded wave (claims C8, C9).
   ------------------------------------------------------------------ -/

theorem abs_raw_wave_le_one (f d : ℚ) (r k : ℕ) : |raw_wave f d r k| ≤ 1 :=
  abs_le.mpr ⟨Real.neg_one_le_sin _, Real.sin_le_one _⟩

theorem fade_in_mult_nonneg (fs k : ℕ) : 0 ≤ fade_in_mult fs k := by
  unfold fade_in_mult
  split
  · exact le_refl 0
  · rename_i hfs
    have h2 : (2 : ℝ) ≤ (fs : ℝ) := by exact_mod_cast (by omega : (2:ℕ) ≤ fs)
    exact div_nonneg (Nat.cast_nonneg k) (by linarith)

theorem fade_in_mult_le_one (fs k : ℕ) (hk : k < fs) : fade_in_mult fs k ≤ 1 := by
  unfold fade_in_mult
  split
  · norm_num
  · rename_i hfs
    have h2 : (2 : ℝ) ≤ (fs : ℝ) := by exact_mod_cast (by omega : (2:ℕ) ≤ fs)
    have hk1 : (k : ℝ) + 1 ≤ (fs : ℝ) := by exact_mod_cast Nat.succ_le_of_lt hk
    rw [div_le_one (by linarith)]
    linarith

theorem fade_out_mult_nonneg (fs j : ℕ) (hj : j < fs) : 0 ≤ fade_out_mult fs j := by
  unfold fade_out_mult
  split
  · norm_num
  · rename_i hfs
    have h2 : (2 : ℝ) ≤ (fs : ℝ) := by exact_mod_cast (by omega : (2:ℕ) ≤ fs)
    have hj1 : (j : ℝ) + 1 ≤ (fs : ℝ) := by exact_mod_cast Nat.succ_le_of_lt hj
    have hd : (0 : ℝ) < (fs : ℝ) - 1 := by linarith
    have hdiv : (j : ℝ) / ((fs : ℝ) - 1) ≤ 1 := by
      rw [div_le_one hd]
      linarith
    linarith

theorem fade_out_mult_le_one (fs j : ℕ) : fade_out_mult fs j ≤ 1 := by
  unfold fade_out_mult
  split
  · norm_num
  · rename_i hfs
    have h2 : (2 : ℝ) ≤ (fs : ℝ) := by exact_mod_cast (by omega : (2:ℕ) ≤ fs)
    have hdiv : 0 ≤ (j : ℝ) / ((fs : ℝ) - 1) :=
      div_nonneg (Nat.cast_nonneg j) (by linarith)
    linarith

theorem abs_fade_in_mult_le_one (fs k : ℕ) (hk : k < fs) : |fade_in_mult fs k| ≤ 1 := by
  rw [abs_of_nonneg (fade_in_mult_nonneg fs k)]
  exact fade_in_mult_le_one fs k hk

theorem abs_fade_out_mult_le_one (fs j : ℕ) (hj : j < fs) : |fade_out_mult fs j| ≤ 1 := by
  rw [abs_of_nonneg (fade_out_mult_nonneg fs j hj)]
  exact fade_out_mult_le_one fs j

theorem abs_fade_in_factor_le_one (u v : ℚ) (r k : ℕ) :
    |(if k < fade_samples r then fade_in_mult (fade_samples r) k else 1)| ≤ 1 := by
  split
  · exact abs_fade_in_mult_le_one _ _ (by assumption)
  · simp

theorem abs_fade_out_factor_le_one (u d : ℚ) (r k : ℕ) (hk : k < n_samples d r) :
    |(if n_samples d r - fade_samples r ≤ k then
        fade_out_mult (fade_samples r) (k - (n_samples d r - fade_samples r))
      else 1)| ≤ 1 := by
  split
  · rename_i hge
    exact abs_fade_out_mult_le_one _ _ (by omega)
  · simp

theorem abs_faded_wave_le_one (f d : ℚ) (r k : ℕ) (hk : k < n_samples d r) :
    |faded_wave f d r k| ≤ 1 := by
  unfold faded_wave
  rw [abs_mul, abs_mul]
  have h1 := abs_fade_in_factor_le_one f d r k
  have h2 := abs_fade_out_factor_le_one f d r k hk
  have h3 := abs_raw_wave_le_one f d r k
  have hbc : |(if n_samples d r - fade_samples r ≤ k then
      fade_out_mult (fade_samples r) (k - (n_samples d r - fade_samples r))
    else 1)| * |raw_wave f d r k| ≤ 1 := by
    have h := mul_le_mul h2 h3 (abs_nonneg _) zero_le_one
    simpa using h
  have h := mul_le_mul h1 hbc (mul_nonneg (abs_nonneg _) (abs_nonneg _)) zero_le_one
  simpa using h

theorem pcm_sample_bounds (f d : ℚ) (r k : ℕ) (hk : k < n_samples d r) :
    -32767 ≤ pcm_sample f d r k ∧ pcm_sample f d r k ≤ 32767 := by
  have habs := abs_faded_wave_le_one f d r k hk
  rw [abs_le] at habs
  have hxle : faded_wave f d r k * 32767 ≤ 32767 := by nlinarith [habs.2]
  have hxge : (-32767 : ℝ) ≤ faded_wave f d r k * 32767 := by nlinarith [habs.1]
  unfold pcm_sample
  split
  · rename_i hpos
    constructor
    · have h0 : (0 : ℤ) ≤ ⌊faded_wave f d r k * 32767⌋ := Int.floor_nonneg.mpr hpos
      omega
    · have h : (⌊faded_wave f d r k * 32767⌋ : ℝ) ≤ ((32767 : ℤ) : ℝ) := by
        calc (⌊faded_wave f d r k * 32767⌋ : ℝ) ≤ faded_wave f d r k * 32767 :=
              Int.floor_le _
          _ ≤ ((32767 : ℤ) : ℝ) := by exact_mod_cast hxle
      exact_mod_cast h
  · rename_i hneg
    constructor
    · have h : ((-32767 : ℤ) : ℝ) ≤ (⌈faded_wave f d r k * 32767⌉ : ℝ) := by
        calc ((-32767 : ℤ) : ℝ) ≤ faded_wave f d r k * 32767 := by exact_mod_cast hxge
          _ ≤ (⌈faded_wave f d r k * 32767⌉ : ℝ) := Int.le_ceil _
      exact_mod_cast h
    · have h0 : ⌈faded_wave f d r k * 32767⌉ ≤ (0 : ℤ) :=
        Int.ceil_le.mpr (by exact_mod_cast le_of_not_le hneg)
      omega

theorem faded_wave_le_fade_in (f d : ℚ) (r k : ℕ) (hk : k < n_samples d r)
    (hkf : k < fade_samples r) :
    |faded_wave f d r k| ≤ fade_in_mult (fade_samples r) k := by
  unfold faded_wave
  rw [if_pos hkf, abs_mul, abs_of_nonneg (fade_in_mult_nonneg _ _)]
  have hbc : |(if n_samples d r - fade_samples r ≤ k then
      fade_out_mult (fade_samples r) (k - (n_samples d r - fade_samples r))
    else 1) * raw_wave f d r k| ≤ 1 := by
    rw [abs_mul]
    have h := mul_le_mul (abs_fade_out_factor_le_one f d r k hk)
      (abs_raw_wave_le_one f d r k) (abs_nonneg _) zero_le_one
    simpa using h
  have h := mul_le_mul_of_nonneg_left hbc (fade_in_mult_nonneg (fade_samples r) k)
  simpa using h

theorem faded_wave_le_fade_out (f d : ℚ) (r k : ℕ) (hk : k < n_samples d r)
    (hge : n_samples d r - fade_samples r ≤ k) :
    |faded_wave f d r k| ≤
      fade_out_mult (fade_samples r) (k - (n_samples d r - fade_samples r)) := by
  have hj : k - (n_samples d r - fade_samples r) < fade_samples r := by omega
  have hfo0 := fade_out_mult_nonneg _ _ hj
  unfold faded_wave
  rw [if_pos hge, abs_mul, abs_mul, abs_of_nonneg hfo0]
  have ha := abs_fade_in_factor_le_one f d r k
  have hc := abs_raw_wave_le_one f d r k
  calc |(if k < fade_samples r then fade_in_mult (fade_samples r) k else 1)| *
        (fade_out_mult (fade_samples r) (k - (n_samples d r - fade_samples r)) *
          |raw_wave f d r k|)
      ≤ 1 * (fade_out_mult (fade_samples r) (k - (n_samples d r - fade_samples r)) *
          |raw_wave f d r k|) :=
        mul_le_mul_of_nonneg_right ha (mul_nonneg hfo0 (abs_nonneg _))
    _ = fade_out_mult (fade_samples r) (k - (n_samples d r - fade_samples r)) *
          |raw_wave f d r k| := one_mul _
    _ ≤ fade_out_mult (fade_samples r) (k - (n_samples d r - fade_samples r)) * 1 :=
        mul_le_mul_of_nonneg_left hc hfo0
    _ = fade_out_mult (fade_samples r) (k - (n_samples d r - fade_samples r)) := mul_one _

theorem audio_samples_length (f d : ℚ) (r : ℕ) :
    (audio_samples f d r).length = n_samples d r := by
  unfold audio_samples
  simp

theorem n_samples_eq_floor (d : ℚ) (r : ℕ) (hd : 0 < d) (hr : 0 < r) :
    (n_samples d r : ℤ) = ⌊(r : ℚ) * d⌋ := by
  unfold n_samples
  apply Int.toNat_of_nonneg
  apply Int.floor_nonneg.mpr
  have hr0 : (0 : ℚ) ≤ (r : ℚ) := by positivity
  exact mul_nonneg hr0 (le_of_lt hd)

theorem floor_round_dist (x : ℚ) : |⌊x⌋ - round x| ≤ 1 := by
  rw [round_eq]
  have h1 : ⌊x⌋ ≤ ⌊x + 1/2⌋ := Int.floor_le_floor (by linarith)
  have h2 : ⌊x + 1/2⌋ ≤ ⌊x⌋ + 1 := by
    have hmono : ⌊x + 1/2⌋ ≤ ⌊x + ((1:ℤ) : ℚ)⌋ := Int.floor_le_floor (by push_cast; linarith)
    rw [Int.floor_add_int] at hmono
    exact hmono
  rw [abs_le]
  omega

/- ------------------------------------------------------------------
   Claim C8.
   ------------------------------------------------------------------ -/

/-- Claim C8: the tone synthesizer is deterministic — the source reads only
its three arguments (no session state, clock, or randomness), so it embeds as
a pure function of `(frequencyHz, durationSeconds, sampleRateHz)`, and any two
calls with equal arguments produce byte-identical WAV streams. -/
theorem C8_synth_deterministic (f1 d1 : ℚ) (r1 : ℕ) (f2 d2 : ℚ) (r2 : ℕ)
    (hf : f1 = f2) (hd : d1 = d2) (hr : r1 = r2) :
    wav_bytes f1 d1 r1 = wav_bytes f2 d2 r2 := by
  subst hf
  subst hd
  subst hr
  rfl

theorem C8_synth_deterministic_witness :
    wav_bytes 440 (1/2) 44100 = wav_bytes 440 (1/2) 44100 :=
  C8_synth_deterministic 440 (1/2) 44100 440 (1/2) 44100 rfl rfl rfl

/- ------------------------------------------------------------------
   Claim C9.
   ------------------------------------------------------------------ -/

theorem fade_samples_one_hundred : fade_samples 100 = 1 := by
  unfold fade_samples
  rw [show (1/100 : ℚ) * ((100:ℕ) : ℚ) = 1 by norm_num]
  decide

theorem n_samples_one_hundred : n_samples 1 100 = 100 := by
  unfold n_samples
  rw [show ((100:ℕ) : ℚ) * 1 = 100 by norm_num]
  decide

/-- Claim C9 (amended): for positive duration and sample rate within the
crash-free fade domain — `1 ≤ fade_samples ≤ n_samples(d, r)`, since outside
it (a sample rate below 100 Hz with a non-empty buffer, or a fade longer than
the buffer) the fade lines raise an uncaught numpy broadcast ValueError and no
buffer is produced — the synthesizer returns a buffer holding
`int(sampleRate * duration)` samples, within ±1 of
`round(sampleRate * duration)`, quantised to 16-bit signed PCM (every sample
in [-32767, 32767]); a linear fade is applied over the first and last 10 ms in
the sense that every faded sample's amplitude is bounded by its linear fade
factor (`linspace(0,1)` on the way in, `linspace(1,0)` on the way out); but a
sample in the fade regions need not be strictly lower in amplitude than the
buffer-midpoint sample, since the midpoint can land on a zero crossing of the
sine. -/
theorem C9_buffer_shape (f d : ℚ) (r : ℕ) (hd : 0 < d) (hr : 0 < r)
    (hfs1 : 1 ≤ fade_samples r) (hfsn : fade_samples r ≤ n_samples d r) :
    generate_beep_sound f d r = some (wav_bytes f d r) ∧
    (audio_samples f d r).length = n_samples d r ∧
    (n_samples d r : ℤ) = ⌊(r : ℚ) * d⌋ ∧
    |(n_samples d r : ℤ) - round ((r : ℚ) * d)| ≤ 1 ∧
    (∀ k, k < n_samples d r → -32767 ≤ pcm_sample f d r k ∧ pcm_sample f d r k ≤ 32767) ∧
    (∀ k, k < n_samples d r → k < fade_samples r →
        |faded_wave f d r k| ≤ fade_in_mult (fade_samples r) k) ∧
    (∀ k, k < n_samples d r → n_samples d r - fade_samples r ≤ k →
        |faded_wave f d r k| ≤ fade_out_mult (fade_samples r)
          (k - (n_samples d r - fade_samples r))) := by
  refine ⟨?_, audio_samples_length f d r, n_samples_eq_floor d r hd hr, ?_, ?_, ?_, ?_⟩
  · unfold generate_beep_sound
    rw [if_pos (show fade_ok d r from Or.inl ⟨hfs1, hfsn⟩)]
  · rw [n_samples_eq_floor d r hd hr]
    exact floor_round_dist _
  · intro k hk
    exact pcm_sample_bounds f d r k hk
  · intro k hk hkf
    exact faded_wave_le_fade_in f d r k hk hkf
  · intro k hk hge
    exact faded_wave_le_fade_out f d r k hk hge

theorem C9_buffer_shape_witness :
    (0 < (1 : ℚ)) ∧ (0 < (100 : ℕ)) ∧
    (1 ≤ fade_samples 100) ∧ (fade_samples 100 ≤ n_samples 1 100) ∧
    (generate_beep_sound 440 1 100 = some (wav_bytes 440 1 100) ∧
      (audio_samples 440 1 100).length = n_samples 1 100 ∧
      (n_samples 1 100 : ℤ) = ⌊((100:ℕ) : ℚ) * 1⌋ ∧
      |(n_samples 1 100 : ℤ) - round (((100:ℕ) : ℚ) * 1)| ≤ 1 ∧
      (∀ k, k < n_samples 1 100 →
          -32767 ≤ pcm_sample 440 1 100 k ∧ pcm_sample 440 1 100 k ≤ 32767) ∧
      (∀ k, k < n_samples 1 100 → k < fade_samples 100 →
          |faded_wave 440 1 100 k| ≤ fade_in_mult (fade_samples 100) k) ∧
      (∀ k, k < n_samples 1 100 → n_samples 1 100 - fade_samples 100 ≤ k →
          |faded_wave 440 1 100 k| ≤ fade_out_mult (fade_samples 100)
            (k - (n_samples 1 100 - fade_samples 100)))) :=
  ⟨by decide, by decide,
    by simp [fade_samples_one_hundred],
    by simp [fade_samples_one_hundred, n_samples_one_hundred],
    C9_buffer_shape 440 1 100 (by decide) (by decide)
      (by simp [fade_samples_one_hundred])
      (by simp [fade_samples_one_hundred, n_samples_one_hundred])⟩

/- Concrete evaluation of the synthesizer at frequency 25 Hz, duration 1/25 s,
sample rate 100 Hz: four samples at phases 0, π/2, π, 3π/2. -/

theorem n_samples_ce : n_samples (1/25) 100 = 4 := by
  unfold n_samples
  rw [show ((100:ℕ) : ℚ) * (1/25) = 4 by norm_num]
  decide

theorem fade_samples_ce : fade_samples 100 = 1 := by
  unfold fade_samples
  rw [show (1/100 : ℚ) * ((100:ℕ) : ℚ) = 1 by norm_num]
  decide

theorem raw_wave_ce_three : raw_wave 25 (1/25) 100 3 = -1 := by
  unfold raw_wave sample_t
  rw [n_samples_ce]
  rw [show 2 * Real.pi * ((25:ℚ) : ℝ) * (((1/25 : ℚ) : ℝ) * ((3:ℕ) : ℝ) / ((4:ℕ) : ℝ))
      = Real.pi + Real.pi / 2 from by push_cast; ring]
  rw [Real.sin_add, Real.sin_pi, Real.cos_pi, Real.sin_pi_div_two]
  ring

theorem raw_wave_ce_two : raw_wave 25 (1/25) 100 2 = 0 := by
  unfold raw_wave sample_t
  rw [n_samples_ce]
  rw [show 2 * Real.pi * ((25:ℚ) : ℝ) * (((1/25 : ℚ) : ℝ) * ((2:ℕ) : ℝ) / ((4:ℕ) : ℝ))
      = Real.pi from by push_cast; ring]
  exact Real.sin_pi

theorem faded_ce_three : faded_wave 25 (1/25) 100 3 = -1 := by
  unfold faded_wave
  rw [n_samples_ce, fade_samples_ce, raw_wave_ce_three]
  norm_num [fade_out_mult]

theorem faded_ce_two : faded_wave 25 (1/25) 100 2 = 0 := by
  unfold faded_wave
  rw [n_samples_ce, fade_samples_ce, raw_wave_ce_two]
  norm_num

theorem pcm_ce_three : pcm_sample 25 (1/25) 100 3 = -32767 := by
  unfold pcm_sample
  rw [faded_ce_three]
  rw [if_neg (by norm_num)]
  rw [show (-1 : ℝ) * 32767 = ((-32767 : ℤ) : ℝ) from by norm_num]
  exact Int.ceil_intCast _

theorem pcm_ce_two : pcm_sample 25 (1/25) 100 2 = 0 := by
  unfold pcm_sample
  rw [faded_ce_two]
  rw [if_pos (by norm_num)]
  rw [show (0 : ℝ) * 32767 = ((0 : ℤ) : ℝ) from by norm_num]
  exact Int.floor_intCast _

/-- Claim C9, counterexample to the claim as stated: at frequency 25 Hz,
duration 1/25 s (0.04 s) and sample rate 100 Hz, the buffer has 4 samples and
the fade regions are 1 sample long; the last sample (index 3, inside the last
10 ms) quantises to -32767, while the buffer-midpoint sample (index 4/2 = 2)
lands on a zero crossing of the sine and quantises to 0 — so the samples in
the last 10 ms do not have strictly lower amplitude than the midpoint. -/
theorem C9_counterexample :
    n_samples (1/25) 100 = 4 ∧
    fade_samples 100 = 1 ∧
    n_samples (1/25) 100 - fade_samples 100 ≤ 3 ∧
    3 < n_samples (1/25) 100 ∧
    pcm_sample 25 (1/25) 100 3 = -32767 ∧
    pcm_sample 25 (1/25) 100 (n_samples (1/25) 100 / 2) = 0 ∧
    ¬ (|pcm_sample 25 (1/25) 100 3| <
        |pcm_sample 25 (1/25) 100 (n_samples (1/25) 100 / 2)|) := by
  have h4 := n_samples_ce
  have h1 := fade_samples_ce
  refine ⟨h4, h1, by omega, by omega, pcm_ce_three, ?_, ?_⟩
  · rw [h4]
    exact pcm_ce_two
  · rw [h4]
    rw [show (4:ℕ) / 2 = 2 from rfl]
    rw [pcm_ce_three, pcm_ce_two]
    norm_num

end Timer
